import Mathlib

/-!
# The MPS assertion interface (`src/check.h`)

`check.h` is a header of preprocessor definitions.  Each definition is embedded
as a Lean function from its arguments to the meaning of its expansion:

* the variety chosen by the `#if defined(...)` chains is a value of `Heat`;
* a C expression handed to one of the definitions is a `CExpr`: its spelling
  (what the `#` operator produces) together with its evaluation, a partial
  state transformer that may change any part of the world and may fault;
* the call site supplies `__FILE__` and `__LINE__`;
* `AssertFail1` is only declared in the header (`extern`), so a call to it is
  recorded as an observable event: its argument is appended to
  `World.failures`.
-/

namespace MPS

/-- The variety selected by the chain
`#if defined(MPS_HOT_WHITE) / #elif defined(MPS_HOT_RED) / #elif defined(MPS_COOL)`;
the `#else` branch is `#error "No heat defined."`, so a translation unit that
compiles has exactly one of these. -/
inductive Heat where
  | MPS_HOT_WHITE
  | MPS_HOT_RED
  | MPS_COOL
deriving DecidableEq, Repr

/-- Object addresses; address `0` is the null pointer. -/
abbrev Ptr := Nat

/-- The null pointer constant `NULL`. -/
def NULL : Ptr := 0

/-- The world a statement runs in.  `vars` holds the program variables (of an
arbitrary type `σ`), `sigs` the `sig` field of every live object by address,
`CheckLevel` the global of that name, and `failures` the arguments of the calls
made to `AssertFail1` so far, oldest first. -/
structure World (σ : Type) where
  vars : σ
  sigs : List (Ptr × Nat)
  CheckLevel : Int
  failures : List String
deriving DecidableEq, Repr

/-- Running an expression or statement: `none` is a fault (undefined behaviour,
such as reading through a pointer to no object), otherwise the value and the
world afterwards. -/
abbrev Exec (σ α : Type) := World σ → Option (α × World σ)

/-- A statement is a computation without a value. -/
abbrev Stmt (σ : Type) := Exec σ Unit

/-- A C expression given as an argument: `text` is its spelling as produced by
the `#` operator, `eval` its evaluation. -/
structure CExpr (σ α : Type) where
  text : String
  eval : Exec σ α

/-- The place of an expansion: the values of `__FILE__` and `__LINE__` there. -/
structure Site where
  file : String
  line : Nat
deriving DecidableEq, Repr

/-- What a type name `type` stands for in `type ## Check`, `type ## Sig` and
`#type`: the spelling of the name, the signature constant and the check
function. -/
structure CType (σ : Type) where
  name : String
  Sig : Nat
  Check : Ptr → Exec σ Bool

/-- The three case labels of the `switch(CheckLevel)` statements.  They are
defined outside `check.h`; a `switch` with two equal labels does not compile,
hence `distinct`. -/
structure CheckLevels where
  CheckNONE : Int
  CheckSHALLOW : Int
  CheckDEEP : Int
  distinct : CheckNONE ≠ CheckSHALLOW ∧ CheckNONE ≠ CheckDEEP ∧ CheckSHALLOW ≠ CheckDEEP

variable {σ : Type}

/-- Modelled from the spec: `AssertFail1` is declared `extern` in `check.h` and
defined elsewhere.  The sink reports one event for each call and then returns,
so the call `AssertFail1(s)` appends `s` to `failures`. -/
def AssertFail1 (s : String) : Stmt σ :=
  fun w => some ((), { w with failures := w.failures ++ [s] })

/-- The expansion `STR(__LINE__)`: the decimal spelling of the line number. -/
def STR (line : Nat) : String := toString line

/-- Modelled from the spec: `NOOP` is defined in `misc.h`, which is not part of
the source at hand; it is the statement that does nothing (a "no-op").  The
brackets `BEGIN` and `END` of the same header only make the text between them
one statement, and are left out of the definitions below. -/
def NOOP : Stmt σ :=
  fun w => some ((), w)

/-- Two statements in sequence, `a; b`. -/
def seq (a b : Stmt σ) : Stmt σ :=
  fun w =>
    match a w with
    | none => none
    | some (_, w1) => b w1

/-- The expansion of `ASSERT(cond, condstring)`:
`if(cond) NOOP; else AssertFail1(condstring "\n" __FILE__ "\n" STR(__LINE__));` -/
def ASSERT (site : Site) (cond : Exec σ Bool) (condstring : String) : Stmt σ :=
  fun w =>
    match cond w with
    | none => none
    | some (true, w1) => NOOP w1
    | some (false, w1) =>
      AssertFail1 (condstring ++ "\n" ++ site.file ++ "\n" ++ STR site.line) w1

/-- The expansion of `NOCHECK(cond)`: `(void)sizeof(cond);`.  The operand of
`sizeof` is not evaluated, so the statement does nothing. -/
def NOCHECK {α : Type} (_cond : Exec σ α) : Stmt σ :=
  fun w => some ((), w)

/-- The expansion of `NOTREACHED`:
`AssertFail1("unreachable statement" "\n" __FILE__ "\n" STR(__LINE__));` -/
def NOTREACHED (site : Site) : Stmt σ :=
  AssertFail1 ("unreachable statement" ++ "\n" ++ site.file ++ "\n" ++ STR site.line)

/-- The expansion of `CHECKC(cond, condstring)`, the same text as `ASSERT`. -/
def CHECKC (site : Site) (cond : Exec σ Bool) (condstring : String) : Stmt σ :=
  fun w =>
    match cond w with
    | none => none
    | some (true, w1) => NOOP w1
    | some (false, w1) =>
      AssertFail1 (condstring ++ "\n" ++ site.file ++ "\n" ++ STR site.line) w1

/-- Reading `p->sig`: a fault when `p` is null or no object lives at `p`. -/
def readSig (p : Ptr) : Exec σ Nat :=
  fun w =>
    if p = NULL then none
    else
      match w.sigs.lookup p with
      | none => none
      | some s => some (s, w)

/-- The call `type ## Check(val)`: the argument is evaluated, then the check
function of the type is applied to it. -/
def callCheck (T : CType σ) (val : CExpr σ Ptr) : Exec σ Bool :=
  fun w =>
    match val.eval w with
    | none => none
    | some (p, w1) => T.Check p w1

/-- The expression `CHECKT(type, val)`:
`((val) != NULL && (val)->sig == type ## Sig)`.  `val` occurs twice in the
expansion; the right operand of `&&` is evaluated only when the left one is
true. -/
def CHECKT (T : CType σ) (val : CExpr σ Ptr) : Exec σ Bool :=
  fun w =>
    match val.eval w with
    | none => none
    | some (p, w1) =>
      if p ≠ NULL then
        match val.eval w1 with
        | none => none
        | some (q, w2) =>
          match readSig q w2 with
          | none => none
          | some (s, w3) => some (decide (s = T.Sig), w3)
      else some (false, w1)

/-- The string `"TypeCheck " #type ": " #val`. -/
def typeCheckString (T : CType σ) (val : CExpr σ Ptr) : String :=
  "TypeCheck " ++ T.name ++ ": " ++ val.text

/-- The string `"SigCheck " #type ": " #val`. -/
def sigCheckString (T : CType σ) (val : CExpr σ Ptr) : String :=
  "SigCheck " ++ T.name ++ ": " ++ val.text

/-- The three definitions of `AVER(cond)`. -/
def AVER (h : Heat) (site : Site) (cond : CExpr σ Bool) : Stmt σ :=
  match h with
  | .MPS_HOT_WHITE => NOCHECK cond.eval
  | .MPS_HOT_RED => ASSERT site cond.eval cond.text
  | .MPS_COOL => ASSERT site cond.eval cond.text

/-- The three definitions of `AVERT(type, val)`. -/
def AVERT (h : Heat) (site : Site) (T : CType σ) (val : CExpr σ Ptr) : Stmt σ :=
  match h with
  | .MPS_HOT_WHITE => NOCHECK (callCheck T val)
  | .MPS_HOT_RED => ASSERT site (callCheck T val) (typeCheckString T val)
  | .MPS_COOL => ASSERT site (callCheck T val) (typeCheckString T val)

/-- The three definitions of `AVER_CRITICAL(cond)`. -/
def AVER_CRITICAL (h : Heat) (site : Site) (cond : CExpr σ Bool) : Stmt σ :=
  match h with
  | .MPS_HOT_WHITE => NOCHECK cond.eval
  | .MPS_HOT_RED => NOCHECK cond.eval
  | .MPS_COOL => ASSERT site cond.eval cond.text

/-- The three definitions of `AVERT_CRITICAL(type, val)`. -/
def AVERT_CRITICAL (h : Heat) (site : Site) (T : CType σ) (val : CExpr σ Ptr) : Stmt σ :=
  match h with
  | .MPS_HOT_WHITE => NOCHECK (callCheck T val)
  | .MPS_HOT_RED => NOCHECK (callCheck T val)
  | .MPS_COOL => ASSERT site (callCheck T val) (typeCheckString T val)

/-- The three definitions of `CHECKS(type, val)`. -/
def CHECKS (h : Heat) (site : Site) (T : CType σ) (val : CExpr σ Ptr) : Stmt σ :=
  match h with
  | .MPS_HOT_WHITE => seq (NOCHECK (CHECKT T val)) (NOTREACHED site)
  | .MPS_HOT_RED => CHECKC site (CHECKT T val) (sigCheckString T val)
  | .MPS_COOL => CHECKC site (CHECKT T val) (sigCheckString T val)

/-- The three definitions of `CHECKL(cond)`.  In the cool variety the
`switch` reads `CheckLevel` and then runs the selected branch. -/
def CHECKL (K : CheckLevels) (h : Heat) (site : Site) (cond : CExpr σ Bool) : Stmt σ :=
  match h with
  | .MPS_HOT_WHITE => seq (NOCHECK cond.eval) (NOTREACHED site)
  | .MPS_HOT_RED => NOCHECK cond.eval
  | .MPS_COOL => fun w =>
    if w.CheckLevel = K.CheckNONE then NOOP w
    else if w.CheckLevel = K.CheckSHALLOW ∨ w.CheckLevel = K.CheckDEEP then
      CHECKC site cond.eval cond.text w
    else NOTREACHED site w

/-- The three definitions of `CHECKD(type, val)`. -/
def CHECKD (K : CheckLevels) (h : Heat) (site : Site) (T : CType σ) (val : CExpr σ Ptr) :
    Stmt σ :=
  match h with
  | .MPS_HOT_WHITE => seq (NOCHECK (CHECKT T val)) (NOTREACHED site)
  | .MPS_HOT_RED => NOCHECK (CHECKT T val)
  | .MPS_COOL => fun w =>
    if w.CheckLevel = K.CheckNONE then NOOP w
    else if w.CheckLevel = K.CheckSHALLOW then
      CHECKC site (CHECKT T val) (sigCheckString T val) w
    else if w.CheckLevel = K.CheckDEEP then
      CHECKC site (callCheck T val) (typeCheckString T val) w
    else NOTREACHED site w

/-- The three definitions of `CHECKU(type, val)`. -/
def CHECKU (K : CheckLevels) (h : Heat) (site : Site) (T : CType σ) (val : CExpr σ Ptr) :
    Stmt σ :=
  match h with
  | .MPS_HOT_WHITE => seq (NOCHECK (CHECKT T val)) (NOTREACHED site)
  | .MPS_HOT_RED => NOCHECK (CHECKT T val)
  | .MPS_COOL => fun w =>
    if w.CheckLevel = K.CheckNONE then NOOP w
    else if w.CheckLevel = K.CheckSHALLOW ∨ w.CheckLevel = K.CheckDEEP then
      CHECKC site (CHECKT T val) (sigCheckString T val) w
    else NOTREACHED site w

/-- The world `w` after one more call `AssertFail1(s)`. -/
def World.report (w : World σ) (s : String) : World σ :=
  { w with failures := w.failures ++ [s] }

/-- `NOTREACHED` as it stands in the variety `h`.  The definition (lines 90-93)
is outside the `#if` chains, so each variety has the same expansion. -/
def NOTREACHED_in (_h : Heat) (site : Site) : Stmt σ :=
  NOTREACHED site

/-- The two definitions of `STATISTIC(gather)`: `NOCHECK(((gather), 0))` under
`MPS_HOT_WHITE`, where the comma expression is the operand of `sizeof`, and
`BEGIN (gather); END` otherwise, where `gather` is evaluated and its value
dropped. -/
def STATISTIC {α : Type} (h : Heat) (gather : Exec σ α) : Stmt σ :=
  match h with
  | .MPS_HOT_WHITE =>
    NOCHECK (fun w =>
      match gather w with
      | none => none
      | some (_, w1) => some ((0 : Int), w1))
  | .MPS_HOT_RED => fun w =>
    match gather w with
    | none => none
    | some (_, w1) => some ((), w1)
  | .MPS_COOL => fun w =>
    match gather w with
    | none => none
    | some (_, w1) => some ((), w1)

/-- A member of a structure type as the compiler lays it out:
`sizeof(((s *)0)->f)` and `offsetof(s, f)`. -/
structure Member where
  size : Nat
  offset : Nat
deriving DecidableEq, Repr

/-- A C type as the compiler lays it out: `sizeof(t)` and, for a structure
type, its members by name. -/
structure TypeDecl where
  size : Nat
  members : List (String × Member)
deriving DecidableEq, Repr

/-- The lvalues `*((t *)0)` and `((s *)0)->f`: no object lives at the null
pointer, so evaluating one of them is a fault. -/
def nullLvalue : Exec σ Unit :=
  fun _ => none

/-- The expression `CHECKLVALUE(lv1, lv2)`:
`((void)sizeof((lv1) = (lv2)), (void)sizeof((lv2) = (lv1)), TRUE)`.  Both
assignments are operands of `sizeof` and are not evaluated; the value is
`TRUE`.  The expansion is legal C only when each lvalue may be assigned to the
other, which is taken for granted of the arguments. -/
def CHECKLVALUE {α β : Type} (_lv1 : Exec σ α) (_lv2 : Exec σ β) : Exec σ Bool :=
  fun w => some (true, w)

/-- The expression `CHECKTYPE(t1, t2)`:
`(sizeof(t1) == sizeof(t2) && CHECKLVALUE(*((t1 *)0), *((t2 *)0)))`. -/
def CHECKTYPE (t1 t2 : TypeDecl) : Exec σ Bool :=
  fun w =>
    if t1.size = t2.size then
      CHECKLVALUE (nullLvalue : Exec σ Unit) (nullLvalue : Exec σ Unit) w
    else some (false, w)

/-- The expression `CHECKFIELDAPPROX(s1, f1, s2, f2)`:
`(sizeof(((s1 *)0)->f1) == sizeof(((s2 *)0)->f2) &&
offsetof(s1, f1) == offsetof(s2, f2))`.  There is no result when one of the
types lacks the member named (such an expansion does not compile). -/
def CHECKFIELDAPPROX (s1 : TypeDecl) (f1 : String) (s2 : TypeDecl) (f2 : String) :
    Exec σ Bool :=
  fun w =>
    match s1.members.lookup f1, s2.members.lookup f2 with
    | some m1, some m2 =>
      some (decide (m1.size = m2.size) && decide (m1.offset = m2.offset), w)
    | _, _ => none

/-- The expression `CHECKFIELD(s1, f1, s2, f2)`:
`(CHECKFIELDAPPROX(s1, f1, s2, f2) && CHECKLVALUE(((s1 *)0)->f1, ((s2 *)0)->f2))`. -/
def CHECKFIELD (s1 : TypeDecl) (f1 : String) (s2 : TypeDecl) (f2 : String) :
    Exec σ Bool :=
  fun w =>
    match CHECKFIELDAPPROX s1 f1 s2 f2 w with
    | none => none
    | some (true, w1) =>
      CHECKLVALUE (nullLvalue : Exec σ Unit) (nullLvalue : Exec σ Unit) w1
    | some (false, w1) => some (false, w1)

/-- Whether the run of `s` from `w` ends with `m` among the failures it added
to the record. -/
def reports (s : Stmt σ) (w : World σ) (m : String) : Bool :=
  match s w with
  | none => false
  | some (_, w1) => (w1.failures.drop w.failures.length).contains m

/-! ## Concrete inputs used to exercise the definitions -/

/-- A call site used in the examples. -/
def site0 : Site := ⟨"pool.c", 42⟩

/-- A world with one counter variable (zero), one live object at address 8
whose `sig` field holds 519, check level 1 and no failure so far. -/
def world0 : World Nat := ⟨0, [(8, 519)], 1, []⟩

/-- The condition `hits++ > 9`, with `hits` the counter: it increments the
counter and yields the comparison of the old value. -/
def bumpCond : CExpr Nat Bool :=
  ⟨"hits++ > 9", fun w => some (decide (w.vars > 9), { w with vars := w.vars + 1 })⟩

/-- Case labels `0`, `1`, `2`. -/
def levels0 : CheckLevels := ⟨0, 1, 2, by decide⟩

/-- A pointer-valued expression without side effects: a spelling and the
address it denotes. -/
def ptrLit (text : String) (p : Ptr) : CExpr σ Ptr :=
  ⟨text, fun w => some (p, w)⟩

/-- A type `Pool` with signature 519 whose check function counts its calls in
the counter and accepts exactly the addresses that are multiples of 8. -/
def poolType : CType Nat :=
  ⟨"Pool", 519, fun p w => some (decide (p % 8 = 0), { w with vars := w.vars + 1 })⟩

/-- Running a statement `n` times in a row. -/
def repeatStmt (n : Nat) (s : Stmt σ) : Stmt σ :=
  match n with
  | 0 => NOOP
  | k + 1 => seq s (repeatStmt k s)

/-- The expression `counter++` on the counter variable: its value is the old
count. -/
def counterPP : CExpr Nat Nat :=
  ⟨"counter++", fun w => some (w.vars, { w with vars := w.vars + 1 })⟩

/-- A structure of 8 bytes with members `base` (4 bytes at offset 0) and
`limit` (4 bytes at offset 4). -/
def segA : TypeDecl := ⟨8, [("base", ⟨4, 0⟩), ("limit", ⟨4, 4⟩)]⟩

/-- The same members declared in the other order: `limit` at offset 0 and
`base` at offset 4. -/
def segSwapped : TypeDecl := ⟨8, [("limit", ⟨4, 0⟩), ("base", ⟨4, 4⟩)]⟩

/-- The structure `segA` with `base` widened to 8 bytes, so that `limit` moves
to offset 8. -/
def segWide : TypeDecl := ⟨16, [("base", ⟨8, 0⟩), ("limit", ⟨8, 8⟩)]⟩

/-! ## The claims -/

/-- C1. Under `MPS_COOL`, when the condition evaluates to false, `AVER(cond)`
makes exactly one call to `AssertFail1` on top of the single evaluation of the
condition, and its argument is the text of the condition, a newline, the file
name, a newline, and the line number. -/
theorem AVER_cool_false (site : Site) (cond : CExpr σ Bool) (w w1 : World σ)
    (hC : cond.eval w = some (false, w1)) :
    AVER .MPS_COOL site cond w
      = some ((), w1.report (cond.text ++ "\n" ++ site.file ++ "\n" ++ STR site.line)) := by
  simp [AVER, ASSERT, hC, AssertFail1, World.report]

/-- Witness for C1: the counter condition at `pool.c:42`. -/
theorem AVER_cool_false_witness :
    bumpCond.eval world0 = some (false, ⟨1, [(8, 519)], 1, []⟩) ∧
    AVER .MPS_COOL site0 bumpCond world0
      = some ((), ⟨1, [(8, 519)], 1, ["hits++ > 9\npool.c\n42"]⟩) :=
  ⟨by decide, by
    have h := AVER_cool_false site0 bumpCond world0 ⟨1, [(8, 519)], 1, []⟩ (by decide)
    rw [h]; decide⟩

/-- C2 (as stated, refuted). Under `MPS_HOT_RED` a false condition makes `AVER`
report one failure, and `AVER_CRITICAL` leaves the world untouched: the
condition is not evaluated (the counter stays 0) and nothing is reported. -/
theorem hot_red_gating_counterexample :
    bumpCond.eval world0 = some (false, ⟨1, [(8, 519)], 1, []⟩) ∧
    AVER .MPS_HOT_RED site0 bumpCond world0
      = some ((), ⟨1, [(8, 519)], 1, ["hits++ > 9\npool.c\n42"]⟩) ∧
    AVER .MPS_HOT_RED site0 bumpCond world0 ≠ some ((), world0) ∧
    AVER_CRITICAL .MPS_HOT_RED site0 bumpCond world0 = some ((), world0) ∧
    AVER_CRITICAL .MPS_HOT_RED site0 bumpCond world0
      ≠ some ((), ⟨1, [(8, 519)], 1, ["hits++ > 9\npool.c\n42"]⟩) := by
  decide

/-- C2 (amended). For a condition that evaluates to false: `AVER` reports
one failure under `MPS_COOL` and under `MPS_HOT_RED` and is a no-op that does
not evaluate the condition under `MPS_HOT_WHITE`; `AVER_CRITICAL` reports one
failure under `MPS_COOL` only and is a no-op that does not evaluate the
condition under `MPS_HOT_RED` and under `MPS_HOT_WHITE`. -/
theorem AVER_gating (site : Site) (cond : CExpr σ Bool) (w w1 : World σ)
    (hC : cond.eval w = some (false, w1)) :
    AVER .MPS_COOL site cond w
      = some ((), w1.report (cond.text ++ "\n" ++ site.file ++ "\n" ++ STR site.line)) ∧
    AVER .MPS_HOT_RED site cond w
      = some ((), w1.report (cond.text ++ "\n" ++ site.file ++ "\n" ++ STR site.line)) ∧
    AVER .MPS_HOT_WHITE site cond w = some ((), w) ∧
    AVER_CRITICAL .MPS_COOL site cond w
      = some ((), w1.report (cond.text ++ "\n" ++ site.file ++ "\n" ++ STR site.line)) ∧
    AVER_CRITICAL .MPS_HOT_RED site cond w = some ((), w) ∧
    AVER_CRITICAL .MPS_HOT_WHITE site cond w = some ((), w) := by
  simp [AVER, AVER_CRITICAL, ASSERT, NOCHECK, hC, AssertFail1, World.report]

/-- Witness for C2 (amended): the counter condition at `pool.c:42`. -/
theorem AVER_gating_witness :
    bumpCond.eval world0 = some (false, ⟨1, [(8, 519)], 1, []⟩) ∧
    AVER .MPS_HOT_RED site0 bumpCond world0
      = some ((), ⟨1, [(8, 519)], 1, ["hits++ > 9\npool.c\n42"]⟩) ∧
    AVER_CRITICAL .MPS_HOT_RED site0 bumpCond world0 = some ((), world0) := by
  have h := AVER_gating site0 bumpCond world0 ⟨1, [(8, 519)], 1, []⟩ (by decide)
  refine ⟨by decide, ?_, h.2.2.2.2.1⟩
  rw [h.2.1]; decide

/-- C3. When the condition evaluates to true, in each of the three varieties
`AVER(cond)` and `AVER_CRITICAL(cond)` end in the world left by that one
evaluation, or in the starting world where the expansion does not evaluate
the condition; `AssertFail1` is not called. -/
theorem AVER_true (site : Site) (cond : CExpr σ Bool) (w w1 : World σ)
    (hC : cond.eval w = some (true, w1)) :
    AVER .MPS_HOT_WHITE site cond w = some ((), w) ∧
    AVER .MPS_HOT_RED site cond w = some ((), w1) ∧
    AVER .MPS_COOL site cond w = some ((), w1) ∧
    AVER_CRITICAL .MPS_HOT_WHITE site cond w = some ((), w) ∧
    AVER_CRITICAL .MPS_HOT_RED site cond w = some ((), w) ∧
    AVER_CRITICAL .MPS_COOL site cond w = some ((), w1) := by
  simp [AVER, AVER_CRITICAL, ASSERT, NOCHECK, NOOP, hC]

/-- Witness for C3: the counter condition started with the counter at 10, so
that `hits++ > 9` is true. -/
theorem AVER_true_witness :
    bumpCond.eval ⟨10, [], 1, ["earlier"]⟩ = some (true, ⟨11, [], 1, ["earlier"]⟩) ∧
    AVER .MPS_COOL site0 bumpCond ⟨10, [], 1, ["earlier"]⟩
      = some ((), ⟨11, [], 1, ["earlier"]⟩) ∧
    AVER_CRITICAL .MPS_HOT_RED site0 bumpCond ⟨10, [], 1, ["earlier"]⟩
      = some ((), ⟨10, [], 1, ["earlier"]⟩) :=
  have h := AVER_true site0 bumpCond ⟨10, [], 1, ["earlier"]⟩ ⟨11, [], 1, ["earlier"]⟩
    (by decide)
  ⟨by decide, h.2.2.1, h.2.2.2.2.1⟩

/-- C4. Under `MPS_HOT_WHITE` none of the eight definitions evaluates its
condition or calls the check function, whatever these would do (even fault):
the four assertions leave the world as it is, and the four checks change
nothing but the record of failures, to which `NOTREACHED` adds its message. -/
theorem hot_white_no_evaluation (K : CheckLevels) (site : Site) (cond : CExpr σ Bool)
    (T : CType σ) (val : CExpr σ Ptr) (w : World σ) :
    AVER .MPS_HOT_WHITE site cond w = some ((), w) ∧
    AVERT .MPS_HOT_WHITE site T val w = some ((), w) ∧
    AVER_CRITICAL .MPS_HOT_WHITE site cond w = some ((), w) ∧
    AVERT_CRITICAL .MPS_HOT_WHITE site T val w = some ((), w) ∧
    CHECKS .MPS_HOT_WHITE site T val w
      = some ((), w.report ("unreachable statement" ++ "\n" ++ site.file ++ "\n" ++ STR site.line)) ∧
    CHECKL K .MPS_HOT_WHITE site cond w
      = some ((), w.report ("unreachable statement" ++ "\n" ++ site.file ++ "\n" ++ STR site.line)) ∧
    CHECKD K .MPS_HOT_WHITE site T val w
      = some ((), w.report ("unreachable statement" ++ "\n" ++ site.file ++ "\n" ++ STR site.line)) ∧
    CHECKU K .MPS_HOT_WHITE site T val w
      = some ((), w.report ("unreachable statement" ++ "\n" ++ site.file ++ "\n" ++ STR site.line)) := by
  simp [AVER, AVERT, AVER_CRITICAL, AVERT_CRITICAL, CHECKS, CHECKL, CHECKD, CHECKU, NOCHECK,
    NOTREACHED, seq, AssertFail1, World.report]

/-- C5. `AVERT(type, val)` and `AVERT_CRITICAL(type, val)`, where `val`
evaluates to `p` and `type ## Check(p)` returns `b`: in the varieties where the
form is an `ASSERT`, the check function is called once and the world it leaves
is kept when `b` is true and gets one more failure, with the message
`TypeCheck <type>: <val>`, file and line, when `b` is false.  In every variety
the typed form is the untyped form of the same tier applied to the call
`type ## Check(val)` with that message text, so both are gated alike. -/
theorem AVERT_typed (site : Site) (T : CType σ) (val : CExpr σ Ptr) (w w1 w2 : World σ)
    (p : Ptr) (b : Bool) (hval : val.eval w = some (p, w1))
    (hchk : T.Check p w1 = some (b, w2)) :
    (∀ h : Heat, h ≠ .MPS_HOT_WHITE →
      AVERT h site T val w
        = some ((), if b then w2 else w2.report
            ("TypeCheck " ++ T.name ++ ": " ++ val.text ++ "\n" ++ site.file ++ "\n"
              ++ STR site.line))) ∧
    AVERT_CRITICAL .MPS_COOL site T val w
      = some ((), if b then w2 else w2.report
          ("TypeCheck " ++ T.name ++ ": " ++ val.text ++ "\n" ++ site.file ++ "\n"
            ++ STR site.line)) ∧
    (∀ h : Heat, AVERT h site T val
      = AVER h site ⟨"TypeCheck " ++ T.name ++ ": " ++ val.text, callCheck T val⟩) ∧
    (∀ h : Heat, AVERT_CRITICAL h site T val
      = AVER_CRITICAL h site ⟨"TypeCheck " ++ T.name ++ ": " ++ val.text, callCheck T val⟩) := by
  refine ⟨?_, ?_, ?_, ?_⟩
  · intro h hh
    cases h <;> cases b <;>
      simp_all [AVERT, ASSERT, callCheck, typeCheckString, AssertFail1, NOOP, World.report]
  · cases b <;>
      simp [AVERT_CRITICAL, ASSERT, callCheck, typeCheckString, AssertFail1, NOOP,
        World.report, hval, hchk]
  · intro h; cases h <;> rfl
  · intro h; cases h <;> rfl

/-- Witness for C5: the unaligned address 13 handed to the check of `Pool`. -/
theorem AVERT_typed_witness :
    (ptrLit "arena" 13).eval world0 = some (13, world0) ∧
    poolType.Check 13 world0 = some (false, ⟨1, [(8, 519)], 1, []⟩) ∧
    AVERT .MPS_HOT_RED site0 poolType (ptrLit "arena" 13) world0
      = some ((), ⟨1, [(8, 519)], 1, ["TypeCheck Pool: arena\npool.c\n42"]⟩) ∧
    AVERT_CRITICAL .MPS_COOL site0 poolType (ptrLit "arena" 13) world0
      = some ((), ⟨1, [(8, 519)], 1, ["TypeCheck Pool: arena\npool.c\n42"]⟩) := by
  have h := AVERT_typed site0 poolType (ptrLit "arena" 13) world0 world0
    ⟨1, [(8, 519)], 1, []⟩ 13 false (by decide) (by decide)
  refine ⟨by decide, by decide, ?_, ?_⟩
  · rw [h.1 .MPS_HOT_RED (by decide)]; decide
  · rw [h.2.1]; decide

/-- C6. `CHECKT(type, val)` for a `val` without side effects denoting `p`: when
`p` is null the result is false although reading `p->sig` would fault, so the
field is not read, whatever the signature constant; when `p` is not null and
the object there has `sig` field `s`, the result is whether `s` equals
`type ## Sig`.  In both cases the world (and so the record of failures) is
unchanged. -/
theorem CHECKT_spec (T : CType σ) (val : CExpr σ Ptr) (w : World σ) (p : Ptr)
    (hval : val.eval w = some (p, w)) :
    (p = NULL → CHECKT T val w = some (false, w) ∧ readSig p w = none) ∧
    (∀ s : Nat, p ≠ NULL → w.sigs.lookup p = some s →
      CHECKT T val w = some (decide (s = T.Sig), w)) := by
  constructor
  · intro hp
    subst hp
    simp [CHECKT, hval, readSig]
  · intro s hp hs
    simp [CHECKT, hval, hp, readSig, hs]

/-- Witness for C6: the null pointer, and the object at address 8 against a
matching and a different signature constant. -/
theorem CHECKT_spec_witness :
    CHECKT poolType (ptrLit "pool" NULL) world0 = some (false, world0) ∧
    CHECKT poolType (ptrLit "pool" 8) world0 = some (true, world0) ∧
    CHECKT (⟨"Arena", 77, fun _ _ => none⟩ : CType Nat) (ptrLit "pool" 8) world0
      = some (false, world0) :=
  ⟨((CHECKT_spec poolType (ptrLit "pool" NULL) world0 NULL rfl).1 rfl).1,
   (CHECKT_spec poolType (ptrLit "pool" 8) world0 8 rfl).2 519 (by decide) (by decide),
   (CHECKT_spec ⟨"Arena", 77, fun _ _ => none⟩ (ptrLit "pool" 8) world0 8 rfl).2 519
     (by decide) (by decide)⟩

/-- C7. `CHECKD(type, val)` under `MPS_COOL`.  With `CheckLevel` equal to
`CheckNONE` the world is left as it is.  With `CheckSHALLOW` only
`CHECKT(type, val)` is evaluated: its world is kept when the test is true and
gets one `SigCheck <type>: <val>` failure when it is false, and the check
function plays no part (any other check function gives the same run).  With
`CheckDEEP` the check function is called once on the value of `val`: its world
is kept when it returns true and gets one `TypeCheck <type>: <val>` failure
when it returns false. -/
theorem CHECKD_cool (K : CheckLevels) (site : Site) (T : CType σ) (val : CExpr σ Ptr)
    (w : World σ) :
    (w.CheckLevel = K.CheckNONE → CHECKD K .MPS_COOL site T val w = some ((), w)) ∧
    (w.CheckLevel = K.CheckSHALLOW →
      (∀ (b : Bool) (w1 : World σ), CHECKT T val w = some (b, w1) →
        CHECKD K .MPS_COOL site T val w
          = some ((), if b then w1 else w1.report
              ("SigCheck " ++ T.name ++ ": " ++ val.text ++ "\n" ++ site.file ++ "\n"
                ++ STR site.line))) ∧
      (∀ chk : Ptr → Exec σ Bool,
        CHECKD K .MPS_COOL site { T with Check := chk } val w
          = CHECKD K .MPS_COOL site T val w)) ∧
    (w.CheckLevel = K.CheckDEEP →
      ∀ (p : Ptr) (w1 : World σ) (b : Bool) (w2 : World σ),
        val.eval w = some (p, w1) → T.Check p w1 = some (b, w2) →
        CHECKD K .MPS_COOL site T val w
          = some ((), if b then w2 else w2.report
              ("TypeCheck " ++ T.name ++ ": " ++ val.text ++ "\n" ++ site.file ++ "\n"
                ++ STR site.line))) := by
  obtain ⟨h1, h2, h3⟩ := K.distinct
  refine ⟨?_, ?_, ?_⟩
  · intro h
    simp [CHECKD, h, NOOP]
  · intro h
    refine ⟨?_, ?_⟩
    · intro b w1 hT
      cases b <;>
        simp [CHECKD, h, Ne.symm h1, CHECKC, hT, NOOP, AssertFail1, World.report,
          sigCheckString]
    · intro chk
      simp [CHECKD, h, Ne.symm h1, CHECKC, CHECKT, sigCheckString]
  · intro h p w1 b w2 hval hchk
    cases b <;>
      simp [CHECKD, h, Ne.symm h2, Ne.symm h3, CHECKC, callCheck, hval, hchk, NOOP,
        AssertFail1, World.report, typeCheckString]

/-- Witness for C7: an object at address 8 whose `sig` field was overwritten
with 0, checked as a `Pool` at level shallow (`1`) and at level deep (`2`); only
the deep check runs the check function, which bumps the counter. -/
theorem CHECKD_cool_witness :
    CHECKD levels0 .MPS_COOL site0 poolType (ptrLit "pool" 8) ⟨0, [(8, 0)], 0, []⟩
      = some ((), ⟨0, [(8, 0)], 0, []⟩) ∧
    CHECKD levels0 .MPS_COOL site0 poolType (ptrLit "pool" 8) ⟨0, [(8, 0)], 1, []⟩
      = some ((), ⟨0, [(8, 0)], 1, ["SigCheck Pool: pool\npool.c\n42"]⟩) ∧
    CHECKD levels0 .MPS_COOL site0 poolType (ptrLit "pool" 12) ⟨0, [(8, 0)], 2, []⟩
      = some ((), ⟨1, [(8, 0)], 2, ["TypeCheck Pool: pool\npool.c\n42"]⟩) := by
  refine ⟨?_, ?_, ?_⟩
  · exact (CHECKD_cool levels0 site0 poolType (ptrLit "pool" 8) ⟨0, [(8, 0)], 0, []⟩).1 rfl
  · rw [((CHECKD_cool levels0 site0 poolType (ptrLit "pool" 8) ⟨0, [(8, 0)], 1, []⟩).2.1
      rfl).1 false ⟨0, [(8, 0)], 1, []⟩ (by decide)]
    decide
  · rw [(CHECKD_cool levels0 site0 poolType (ptrLit "pool" 12) ⟨0, [(8, 0)], 2, []⟩).2.2
      rfl 12 ⟨0, [(8, 0)], 2, []⟩ false ⟨1, [(8, 0)], 2, []⟩ (by decide) (by decide)]
    decide

/-- C8. `CHECKU(type, val)` under `MPS_COOL`.  With `CheckLevel` equal to
`CheckNONE` the world is left as it is.  With `CheckSHALLOW` and with
`CheckDEEP` alike, only `CHECKT(type, val)` is evaluated: its world is kept when
the test is true and gets one `SigCheck <type>: <val>` failure when it is
false.  At no value of `CheckLevel` does the check function play a part: any
other check function gives the same run. -/
theorem CHECKU_cool (K : CheckLevels) (site : Site) (T : CType σ) (val : CExpr σ Ptr)
    (w : World σ) :
    (w.CheckLevel = K.CheckNONE → CHECKU K .MPS_COOL site T val w = some ((), w)) ∧
    (w.CheckLevel = K.CheckSHALLOW ∨ w.CheckLevel = K.CheckDEEP →
      ∀ (b : Bool) (w1 : World σ), CHECKT T val w = some (b, w1) →
        CHECKU K .MPS_COOL site T val w
          = some ((), if b then w1 else w1.report
              ("SigCheck " ++ T.name ++ ": " ++ val.text ++ "\n" ++ site.file ++ "\n"
                ++ STR site.line))) ∧
    (∀ chk : Ptr → Exec σ Bool,
      CHECKU K .MPS_COOL site { T with Check := chk } val w
        = CHECKU K .MPS_COOL site T val w) := by
  obtain ⟨h1, h2, _⟩ := K.distinct
  refine ⟨?_, ?_, ?_⟩
  · intro h
    simp [CHECKU, h, NOOP]
  · intro h b w1 hT
    have hn : w.CheckLevel ≠ K.CheckNONE := by
      rcases h with h | h <;> rw [h]
      · exact Ne.symm h1
      · exact Ne.symm h2
    cases b <;>
      simp [CHECKU, h, hn, CHECKC, hT, NOOP, AssertFail1, World.report, sigCheckString]
  · intro chk
    simp [CHECKU, CHECKC, CHECKT, sigCheckString]

/-- Witness for C8: the object with the overwritten `sig` field, checked as a
`Pool` at level shallow (`1`) and at level deep (`2`): the same failure, and the
counter bumped by the check function of `Pool` stays 0. -/
theorem CHECKU_cool_witness :
    CHECKU levels0 .MPS_COOL site0 poolType (ptrLit "pool" 8) ⟨0, [(8, 0)], 0, []⟩
      = some ((), ⟨0, [(8, 0)], 0, []⟩) ∧
    CHECKU levels0 .MPS_COOL site0 poolType (ptrLit "pool" 8) ⟨0, [(8, 0)], 1, []⟩
      = some ((), ⟨0, [(8, 0)], 1, ["SigCheck Pool: pool\npool.c\n42"]⟩) ∧
    CHECKU levels0 .MPS_COOL site0 poolType (ptrLit "pool" 8) ⟨0, [(8, 0)], 2, []⟩
      = some ((), ⟨0, [(8, 0)], 2, ["SigCheck Pool: pool\npool.c\n42"]⟩) := by
  refine ⟨?_, ?_, ?_⟩
  · exact (CHECKU_cool levels0 site0 poolType (ptrLit "pool" 8) ⟨0, [(8, 0)], 0, []⟩).1 rfl
  · rw [(CHECKU_cool levels0 site0 poolType (ptrLit "pool" 8) ⟨0, [(8, 0)], 1, []⟩).2.1
      (Or.inl rfl) false ⟨0, [(8, 0)], 1, []⟩ (by decide)]
    decide
  · rw [(CHECKU_cool levels0 site0 poolType (ptrLit "pool" 8) ⟨0, [(8, 0)], 2, []⟩).2.1
      (Or.inr rfl) false ⟨0, [(8, 0)], 2, []⟩ (by decide)]
    decide

/-- C9. `CHECKL(cond)` under `MPS_COOL`.  With `CheckLevel` equal to
`CheckNONE` the condition is not evaluated and nothing is reported: one run,
and any number of runs in a row, leave the world as it is.  With
`CheckSHALLOW` or `CheckDEEP` the run is the run of `AVER(cond)` at the same
site: the condition is evaluated once, and when it is false one failure with
the text of the condition, the file and the line is reported. -/
theorem CHECKL_cool (K : CheckLevels) (site : Site) (cond : CExpr σ Bool) (w : World σ) :
    (w.CheckLevel = K.CheckNONE →
      CHECKL K .MPS_COOL site cond w = some ((), w) ∧
      ∀ n : Nat, repeatStmt n (CHECKL K .MPS_COOL site cond) w = some ((), w)) ∧
    (w.CheckLevel = K.CheckSHALLOW ∨ w.CheckLevel = K.CheckDEEP →
      CHECKL K .MPS_COOL site cond w = AVER .MPS_COOL site cond w ∧
      ∀ (b : Bool) (w1 : World σ), cond.eval w = some (b, w1) →
        CHECKL K .MPS_COOL site cond w
          = some ((), if b then w1 else w1.report
              (cond.text ++ "\n" ++ site.file ++ "\n" ++ STR site.line))) := by
  obtain ⟨h1, h2, _⟩ := K.distinct
  constructor
  · intro h
    have hone : CHECKL K .MPS_COOL site cond w = some ((), w) := by
      simp [CHECKL, h, NOOP]
    refine ⟨hone, ?_⟩
    intro n
    induction n with
    | zero => rfl
    | succ k ih => simp only [repeatStmt, seq, hone, ih]
  · intro h
    have hn : w.CheckLevel ≠ K.CheckNONE := by
      rcases h with h | h <;> rw [h]
      · exact Ne.symm h1
      · exact Ne.symm h2
    have hA : CHECKL K .MPS_COOL site cond w = AVER .MPS_COOL site cond w := by
      simp [CHECKL, h, hn, CHECKC, AVER, ASSERT]
    refine ⟨hA, ?_⟩
    intro b w1 hC
    rw [hA]
    cases b <;> simp [AVER, ASSERT, hC, NOOP, AssertFail1, World.report]

/-- Witness for C9: the counter condition; at level none (`0`) seven runs leave
the counter at 0, at level deep (`2`) one run bumps it and reports. -/
theorem CHECKL_cool_witness :
    repeatStmt 7 (CHECKL levels0 .MPS_COOL site0 bumpCond) ⟨0, [], 0, []⟩
      = some ((), ⟨0, [], 0, []⟩) ∧
    CHECKL levels0 .MPS_COOL site0 bumpCond ⟨0, [], 2, []⟩
      = AVER .MPS_COOL site0 bumpCond ⟨0, [], 2, []⟩ ∧
    CHECKL levels0 .MPS_COOL site0 bumpCond ⟨0, [], 2, []⟩
      = some ((), ⟨1, [], 2, ["hits++ > 9\npool.c\n42"]⟩) := by
  refine ⟨?_, ?_, ?_⟩
  · exact ((CHECKL_cool levels0 site0 bumpCond ⟨0, [], 0, []⟩).1 rfl).2 7
  · exact ((CHECKL_cool levels0 site0 bumpCond ⟨0, [], 2, []⟩).2 (Or.inr rfl)).1
  · rw [((CHECKL_cool levels0 site0 bumpCond ⟨0, [], 2, []⟩).2 (Or.inr rfl)).2 false
      ⟨1, [], 2, []⟩ (by decide)]
    decide

/-- C10. `CHECKS(type, val)` under `MPS_COOL`, in any world (so for any value
of `CheckLevel`): `CHECKT(type, val)` is evaluated; its world is kept when the
test is true and gets one `SigCheck <type>: <val>` failure when it is false.
For a `val` without side effects, setting `CheckLevel` to any value `l` before
the run gives the same run, with `CheckLevel` equal to `l` afterwards. -/
theorem CHECKS_cool (site : Site) (T : CType σ) (val : CExpr σ Ptr) (w : World σ) :
    (∀ (b : Bool) (w1 : World σ), CHECKT T val w = some (b, w1) →
      CHECKS .MPS_COOL site T val w
        = some ((), if b then w1 else w1.report
            ("SigCheck " ++ T.name ++ ": " ++ val.text ++ "\n" ++ site.file ++ "\n"
              ++ STR site.line))) ∧
    (∀ (text : String) (p : Ptr) (l : Int),
      CHECKS .MPS_COOL site T (ptrLit text p) { w with CheckLevel := l }
        = (CHECKS .MPS_COOL site T (ptrLit text p) w).map
            (fun r => (r.1, { r.2 with CheckLevel := l }))) := by
  constructor
  · intro b w1 hT
    cases b <;>
      simp [CHECKS, CHECKC, hT, NOOP, AssertFail1, World.report, sigCheckString]
  · intro text p l
    by_cases hp : p = NULL
    · simp [CHECKS, CHECKC, CHECKT, ptrLit, hp, AssertFail1]
    · cases hs : w.sigs.lookup p with
      | none => simp [CHECKS, CHECKC, CHECKT, ptrLit, hp, readSig, hs]
      | some s =>
        by_cases hsig : s = T.Sig <;>
          simp [CHECKS, CHECKC, CHECKT, ptrLit, hp, readSig, hs, hsig, NOOP, AssertFail1]

/-- Witness for C10: the object with the overwritten `sig` field, with
`CheckLevel` at none (`0`) and at the undefined value `99`. -/
theorem CHECKS_cool_witness :
    CHECKT poolType (ptrLit "pool" 8) ⟨0, [(8, 0)], 0, []⟩
      = some (false, ⟨0, [(8, 0)], 0, []⟩) ∧
    CHECKS .MPS_COOL site0 poolType (ptrLit "pool" 8) ⟨0, [(8, 0)], 0, []⟩
      = some ((), ⟨0, [(8, 0)], 0, ["SigCheck Pool: pool\npool.c\n42"]⟩) ∧
    CHECKS .MPS_COOL site0 poolType (ptrLit "pool" 8) ⟨0, [(8, 0)], 99, []⟩
      = some ((), ⟨0, [(8, 0)], 99, ["SigCheck Pool: pool\npool.c\n42"]⟩) := by
  refine ⟨by decide, ?_, ?_⟩
  · rw [(CHECKS_cool site0 poolType (ptrLit "pool" 8) ⟨0, [(8, 0)], 0, []⟩).1 false
      ⟨0, [(8, 0)], 0, []⟩ (by decide)]
    decide
  · rw [(CHECKS_cool site0 poolType (ptrLit "pool" 8) ⟨0, [(8, 0)], 99, []⟩).1 false
      ⟨0, [(8, 0)], 99, []⟩ (by decide)]
    decide

/-- C11 (as stated, refuted). Under `MPS_HOT_RED`, `CHECKS` on an object with a
wrong `sig` field, and on the null pointer, reports a `SigCheck` failure; under
`MPS_HOT_WHITE` each of the four checks reports "unreachable statement". -/
theorem checks_outside_cool_counterexample :
    CHECKS .MPS_HOT_RED site0 poolType (ptrLit "pool" 8) ⟨0, [(8, 0)], 1, []⟩
      = some ((), ⟨0, [(8, 0)], 1, ["SigCheck Pool: pool\npool.c\n42"]⟩) ∧
    CHECKS .MPS_HOT_RED site0 poolType (ptrLit "pool" NULL) world0
      = some ((), ⟨0, [(8, 519)], 1, ["SigCheck Pool: pool\npool.c\n42"]⟩) ∧
    CHECKS .MPS_HOT_WHITE site0 poolType (ptrLit "pool" 8) world0
      = some ((), ⟨0, [(8, 519)], 1, ["unreachable statement\npool.c\n42"]⟩) ∧
    CHECKL levels0 .MPS_HOT_WHITE site0 bumpCond world0
      = some ((), ⟨0, [(8, 519)], 1, ["unreachable statement\npool.c\n42"]⟩) ∧
    CHECKD levels0 .MPS_HOT_WHITE site0 poolType (ptrLit "pool" 8) world0
      = some ((), ⟨0, [(8, 519)], 1, ["unreachable statement\npool.c\n42"]⟩) ∧
    CHECKU levels0 .MPS_HOT_WHITE site0 poolType (ptrLit "pool" 8) world0
      = some ((), ⟨0, [(8, 519)], 1, ["unreachable statement\npool.c\n42"]⟩) := by
  decide

/-- C11 (amended). Under `MPS_HOT_RED`, `CHECKL`, `CHECKD` and `CHECKU` evaluate
nothing and report nothing, for every argument, while `CHECKS` evaluates
`CHECKT(type, val)` and reports one `SigCheck <type>: <val>` failure exactly
when the test is false.  Under `MPS_HOT_WHITE` each of the four evaluates
nothing and reports one "unreachable statement" failure. -/
theorem checks_outside_cool (K : CheckLevels) (site : Site) (cond : CExpr σ Bool)
    (T : CType σ) (val : CExpr σ Ptr) (w : World σ) :
    CHECKL K .MPS_HOT_RED site cond w = some ((), w) ∧
    CHECKD K .MPS_HOT_RED site T val w = some ((), w) ∧
    CHECKU K .MPS_HOT_RED site T val w = some ((), w) ∧
    (∀ (b : Bool) (w1 : World σ), CHECKT T val w = some (b, w1) →
      CHECKS .MPS_HOT_RED site T val w
        = some ((), if b then w1 else w1.report
            ("SigCheck " ++ T.name ++ ": " ++ val.text ++ "\n" ++ site.file ++ "\n"
              ++ STR site.line))) ∧
    CHECKS .MPS_HOT_WHITE site T val w
      = some ((), w.report ("unreachable statement" ++ "\n" ++ site.file ++ "\n" ++ STR site.line)) ∧
    CHECKL K .MPS_HOT_WHITE site cond w
      = some ((), w.report ("unreachable statement" ++ "\n" ++ site.file ++ "\n" ++ STR site.line)) ∧
    CHECKD K .MPS_HOT_WHITE site T val w
      = some ((), w.report ("unreachable statement" ++ "\n" ++ site.file ++ "\n" ++ STR site.line)) ∧
    CHECKU K .MPS_HOT_WHITE site T val w
      = some ((), w.report ("unreachable statement" ++ "\n" ++ site.file ++ "\n" ++ STR site.line)) := by
  refine ⟨?_, ?_, ?_, ?_, ?_, ?_, ?_, ?_⟩
  · simp [CHECKL, NOCHECK]
  · simp [CHECKD, NOCHECK]
  · simp [CHECKU, NOCHECK]
  · intro b w1 hT
    cases b <;>
      simp [CHECKS, CHECKC, hT, NOOP, AssertFail1, World.report, sigCheckString]
  · simp [CHECKS, NOCHECK, NOTREACHED, seq, AssertFail1, World.report]
  · simp [CHECKL, NOCHECK, NOTREACHED, seq, AssertFail1, World.report]
  · simp [CHECKD, NOCHECK, NOTREACHED, seq, AssertFail1, World.report]
  · simp [CHECKU, NOCHECK, NOTREACHED, seq, AssertFail1, World.report]

/-- Witness for C11 (amended): under `MPS_HOT_RED` the object with the
overwritten `sig` field fails `CHECKS`, and `CHECKD` on it does nothing. -/
theorem checks_outside_cool_witness :
    CHECKT poolType (ptrLit "pool" 8) ⟨0, [(8, 0)], 2, []⟩
      = some (false, ⟨0, [(8, 0)], 2, []⟩) ∧
    CHECKS .MPS_HOT_RED site0 poolType (ptrLit "pool" 8) ⟨0, [(8, 0)], 2, []⟩
      = some ((), ⟨0, [(8, 0)], 2, ["SigCheck Pool: pool\npool.c\n42"]⟩) ∧
    CHECKD levels0 .MPS_HOT_RED site0 poolType (ptrLit "pool" 8) ⟨0, [(8, 0)], 2, []⟩
      = some ((), ⟨0, [(8, 0)], 2, []⟩) := by
  have h := checks_outside_cool levels0 site0 bumpCond poolType (ptrLit "pool" 8)
    ⟨0, [(8, 0)], 2, []⟩
  refine ⟨by decide, ?_, h.2.1⟩
  rw [h.2.2.2.1 false ⟨0, [(8, 0)], 2, []⟩ (by decide)]
  decide

/-- C12 (as stated, refuted). Run in the variety `MPS_HOT_WHITE`, `NOTREACHED`
calls `AssertFail1` like in the other two; the white-hot expansion of
`CHECKL` ends in that very call. -/
theorem NOTREACHED_hot_white_counterexample :
    NOTREACHED_in .MPS_HOT_WHITE site0 world0
      = some ((), ⟨0, [(8, 519)], 1, ["unreachable statement\npool.c\n42"]⟩) ∧
    NOTREACHED_in .MPS_HOT_WHITE site0 world0 ≠ some ((), world0) ∧
    CHECKL levels0 .MPS_HOT_WHITE site0 bumpCond world0
      = NOTREACHED_in .MPS_HOT_WHITE site0 world0 := by
  decide

/-- C12 (amended). In each of the three varieties, running `NOTREACHED` makes
exactly one call to `AssertFail1`, with the message "unreachable statement",
the file and the line, and changes nothing else. -/
theorem NOTREACHED_reports (h : Heat) (site : Site) (w : World σ) :
    NOTREACHED_in h site w
      = some ((), w.report
          ("unreachable statement" ++ "\n" ++ site.file ++ "\n" ++ STR site.line)) := by
  simp [NOTREACHED_in, NOTREACHED, AssertFail1, World.report]

/-- C13. `STATISTIC(gather)`.  Under `MPS_HOT_WHITE` the expression is not
evaluated: any number of runs leaves the world as it is.  Under `MPS_HOT_RED`
and `MPS_COOL` one run is one evaluation of the expression, and nothing more;
with `counter++` as the expression, `n` runs add exactly `n` to the counter and
leave the rest of the world, the record of failures included, as it was. -/
theorem STATISTIC_spec {α : Type} (gather : Exec σ α) (w : World σ) :
    (∀ n : Nat, repeatStmt n (STATISTIC .MPS_HOT_WHITE gather) w = some ((), w)) ∧
    (∀ h : Heat, h ≠ .MPS_HOT_WHITE → ∀ (v : α) (w1 : World σ), gather w = some (v, w1) →
      STATISTIC h gather w = some ((), w1)) ∧
    (∀ h : Heat, h ≠ .MPS_HOT_WHITE → ∀ (n : Nat) (wc : World Nat),
      repeatStmt n (STATISTIC h counterPP.eval) wc
        = some ((), { wc with vars := wc.vars + n })) := by
  refine ⟨?_, ?_, ?_⟩
  · intro n
    induction n with
    | zero => rfl
    | succ k ih => simp only [repeatStmt, seq, STATISTIC, NOCHECK] at ih ⊢; exact ih
  · intro h hh v w1 hg
    cases h <;> simp_all [STATISTIC]
  · intro h hh n
    have hone : ∀ wc : World Nat,
        STATISTIC h counterPP.eval wc = some ((), { wc with vars := wc.vars + 1 }) := by
      intro wc
      cases h <;> simp_all [STATISTIC, counterPP]
    induction n with
    | zero => intro wc; simp [repeatStmt, NOOP]
    | succ k ih =>
      intro wc
      simp only [repeatStmt, seq, hone, ih]
      simp [Nat.add_assoc, Nat.add_comm 1 k]

/-- Witness for C13: five runs of `STATISTIC(counter++)` from a counter of 3. -/
theorem STATISTIC_spec_witness :
    repeatStmt 5 (STATISTIC .MPS_HOT_WHITE counterPP.eval) ⟨3, [], 1, []⟩
      = some ((), ⟨3, [], 1, []⟩) ∧
    repeatStmt 5 (STATISTIC .MPS_HOT_RED counterPP.eval) ⟨3, [], 1, []⟩
      = some ((), ⟨8, [], 1, []⟩) ∧
    repeatStmt 5 (STATISTIC .MPS_COOL counterPP.eval) ⟨3, [], 1, []⟩
      = some ((), ⟨8, [], 1, []⟩) :=
  ⟨(STATISTIC_spec counterPP.eval ⟨3, [], 1, []⟩).1 5,
   (STATISTIC_spec counterPP.eval ⟨3, [], 1, []⟩).2.2 .MPS_HOT_RED (by decide) 5
     ⟨3, [], 1, []⟩,
   (STATISTIC_spec counterPP.eval ⟨3, [], 1, []⟩).2.2 .MPS_COOL (by decide) 5
     ⟨3, [], 1, []⟩⟩

/-- C14. `CHECKFIELD(s1, f1, s2, f2)` for members `f1` of `s1` and `f2` of
`s2`: the value is true exactly when the two members have the same size and
the same offset, and nothing is evaluated for effect.  So a member compared
with itself gives true, and a different offset or a different size gives
false. -/
theorem CHECKFIELD_spec (s1 : TypeDecl) (f1 : String) (s2 : TypeDecl) (f2 : String)
    (m1 m2 : Member) (w : World σ)
    (h1 : s1.members.lookup f1 = some m1) (h2 : s2.members.lookup f2 = some m2) :
    CHECKFIELD s1 f1 s2 f2 w
      = some (decide (m1.size = m2.size ∧ m1.offset = m2.offset), w) ∧
    CHECKFIELD s1 f1 s1 f1 w = some (true, w) ∧
    (m1.offset ≠ m2.offset → CHECKFIELD s1 f1 s2 f2 w = some (false, w)) ∧
    (m1.size ≠ m2.size → CHECKFIELD s1 f1 s2 f2 w = some (false, w)) := by
  have key : CHECKFIELD s1 f1 s2 f2 w
      = some (decide (m1.size = m2.size ∧ m1.offset = m2.offset), w) := by
    by_cases hs : m1.size = m2.size <;> by_cases ho : m1.offset = m2.offset <;>
      simp [CHECKFIELD, CHECKFIELDAPPROX, CHECKLVALUE, h1, h2, hs, ho]
  refine ⟨key, ?_, ?_, ?_⟩
  · simp [CHECKFIELD, CHECKFIELDAPPROX, CHECKLVALUE, h1]
  · intro ho
    rw [key]; simp [ho]
  · intro hs
    rw [key]; simp [hs]

/-- Witness for C14: `base` of `segA` against `base` of `segA` (true), of the
reordered `segSwapped` (false, offset 4) and of the resized `segWide` (false,
size 8). -/
theorem CHECKFIELD_spec_witness :
    CHECKFIELD segA "base" segA "base" world0 = some (true, world0) ∧
    CHECKFIELD segA "base" segSwapped "base" world0 = some (false, world0) ∧
    CHECKFIELD segA "base" segWide "base" world0 = some (false, world0) :=
  ⟨(CHECKFIELD_spec segA "base" segA "base" ⟨4, 0⟩ ⟨4, 0⟩ world0 (by decide)
      (by decide)).2.1,
   (CHECKFIELD_spec segA "base" segSwapped "base" ⟨4, 0⟩ ⟨4, 4⟩ world0 (by decide)
      (by decide)).2.2.1 (by decide),
   (CHECKFIELD_spec segA "base" segWide "base" ⟨4, 0⟩ ⟨8, 0⟩ world0 (by decide)
      (by decide)).2.2.2 (by decide)⟩

/-- C15. `CHECKTYPE(t1, t2)`: the value is true exactly when `sizeof(t1)`
equals `sizeof(t2)`; swapping the arguments gives the same result, a type
compared with itself gives true, and the world is unchanged although
evaluating either null lvalue would fault, so nothing is dereferenced. -/
theorem CHECKTYPE_spec (t1 t2 : TypeDecl) (w : World σ) :
    CHECKTYPE t1 t2 w = some (decide (t1.size = t2.size), w) ∧
    CHECKTYPE t1 t2 w = CHECKTYPE t2 t1 w ∧
    CHECKTYPE t1 t1 w = some (true, w) ∧
    (nullLvalue : Exec σ Unit) w = none := by
  refine ⟨?_, ?_, ?_, rfl⟩
  · by_cases hs : t1.size = t2.size <;> simp [CHECKTYPE, CHECKLVALUE, hs]
  · by_cases hs : t1.size = t2.size
    · simp [CHECKTYPE, CHECKLVALUE, hs]
    · have hs2 : ¬ t2.size = t1.size := fun h => hs h.symm
      simp [CHECKTYPE, hs, hs2]
  · simp [CHECKTYPE, CHECKLVALUE]

/-- C16 (as stated, refuted). For the same false condition at the same site
under `MPS_COOL`, `AVER` and `AVER_CRITICAL` make the same call: the message
is the text of the condition, the file and the line joined by newlines, three
components and no tag. -/
theorem untagged_counterexample :
    bumpCond.eval world0 = some (false, ⟨1, [(8, 519)], 1, []⟩) ∧
    AVER .MPS_COOL site0 bumpCond world0
      = some ((), ⟨1, [(8, 519)], 1, ["\n".intercalate ["hits++ > 9", "pool.c", "42"]]⟩) ∧
    AVER_CRITICAL .MPS_COOL site0 bumpCond world0
      = AVER .MPS_COOL site0 bumpCond world0 := by
  decide

/-- C16 (amended). For a condition that evaluates to false, at the same site
under `MPS_COOL`, `AVER` and `AVER_CRITICAL` report the same message; it has
three components joined by newlines, in the order text of the condition,
file, line, and carries no tag. -/
theorem AVER_tiers_same_message (site : Site) (cond : CExpr σ Bool) (w w1 : World σ)
    (hC : cond.eval w = some (false, w1)) :
    AVER .MPS_COOL site cond w
      = some ((), w1.report ("\n".intercalate [cond.text, site.file, STR site.line])) ∧
    AVER_CRITICAL .MPS_COOL site cond w
      = some ((), w1.report ("\n".intercalate [cond.text, site.file, STR site.line])) := by
  simp [AVER, AVER_CRITICAL, ASSERT, hC, AssertFail1, World.report, String.intercalate,
    String.intercalate.go]

/-- Witness for C16 (amended): the counter condition at `pool.c:42`. -/
theorem AVER_tiers_same_message_witness :
    bumpCond.eval world0 = some (false, ⟨1, [(8, 519)], 1, []⟩) ∧
    AVER .MPS_COOL site0 bumpCond world0
      = some ((), ⟨1, [(8, 519)], 1, ["hits++ > 9\npool.c\n42"]⟩) ∧
    AVER_CRITICAL .MPS_COOL site0 bumpCond world0
      = some ((), ⟨1, [(8, 519)], 1, ["hits++ > 9\npool.c\n42"]⟩) := by
  have h := AVER_tiers_same_message site0 bumpCond world0 ⟨1, [(8, 519)], 1, []⟩
    (by decide)
  refine ⟨by decide, ?_, ?_⟩
  · rw [h.1]; decide
  · rw [h.2]; decide

/-- A statement that only ever adds the message `m` to the record adds it `n`
times when run `n` times in a row. -/
theorem repeatStmt_report (s : Stmt σ) (m : String)
    (hs : ∀ w : World σ, s w = some ((), w.report m)) (n : Nat) (w : World σ) :
    repeatStmt n s w
      = some ((), { w with failures := w.failures ++ List.replicate n m }) := by
  induction n generalizing w with
  | zero => simp [repeatStmt, NOOP]
  | succ k ih =>
    simp only [repeatStmt, seq, hs, ih]
    simp [World.report, List.replicate_succ]

/-- C17. Under `MPS_COOL`, when `CheckLevel` is none of `CheckNONE`,
`CheckSHALLOW`, `CheckDEEP`, each of `CHECKL`, `CHECKD` and `CHECKU` makes one
call to `AssertFail1` with "unreachable statement", file and line, and
evaluates nothing: the rest of the world is unchanged, whatever the condition,
the value and the check function would do. -/
theorem check_level_default (K : CheckLevels) (site : Site) (cond : CExpr σ Bool)
    (T : CType σ) (val : CExpr σ Ptr) (w : World σ)
    (hN : w.CheckLevel ≠ K.CheckNONE) (hS : w.CheckLevel ≠ K.CheckSHALLOW)
    (hD : w.CheckLevel ≠ K.CheckDEEP) :
    CHECKL K .MPS_COOL site cond w
      = some ((), w.report ("unreachable statement" ++ "\n" ++ site.file ++ "\n" ++ STR site.line)) ∧
    CHECKD K .MPS_COOL site T val w
      = some ((), w.report ("unreachable statement" ++ "\n" ++ site.file ++ "\n" ++ STR site.line)) ∧
    CHECKU K .MPS_COOL site T val w
      = some ((), w.report ("unreachable statement" ++ "\n" ++ site.file ++ "\n" ++ STR site.line)) := by
  simp [CHECKL, CHECKD, CHECKU, hN, hS, hD, NOTREACHED, AssertFail1, World.report]

/-- Witness for C17: `CheckLevel` at `99` with the labels `0`, `1`, `2`; the
condition and the check function would bump the counter, which stays 0. -/
theorem check_level_default_witness :
    CHECKL levels0 .MPS_COOL site0 bumpCond ⟨0, [(8, 0)], 99, []⟩
      = some ((), ⟨0, [(8, 0)], 99, ["unreachable statement\npool.c\n42"]⟩) ∧
    CHECKD levels0 .MPS_COOL site0 poolType (ptrLit "pool" 8) ⟨0, [(8, 0)], 99, []⟩
      = some ((), ⟨0, [(8, 0)], 99, ["unreachable statement\npool.c\n42"]⟩) ∧
    CHECKU levels0 .MPS_COOL site0 poolType (ptrLit "pool" 8) ⟨0, [(8, 0)], 99, []⟩
      = some ((), ⟨0, [(8, 0)], 99, ["unreachable statement\npool.c\n42"]⟩) := by
  have h := check_level_default levels0 site0 bumpCond poolType (ptrLit "pool" 8)
    ⟨0, [(8, 0)], 99, []⟩ (by decide) (by decide) (by decide)
  refine ⟨?_, ?_, ?_⟩
  · rw [h.1]; decide
  · rw [h.2.1]; decide
  · rw [h.2.2]; decide

/-- C18. Under `MPS_HOT_WHITE`, every run of `CHECKS`, `CHECKL`, `CHECKD` or
`CHECKU`, for every argument, makes one call to `AssertFail1` with "unreachable
statement", file and line, and evaluates nothing; `n` runs in a row add that
message `n` times. -/
theorem hot_white_checks_unreachable (K : CheckLevels) (site : Site) (cond : CExpr σ Bool)
    (T : CType σ) (val : CExpr σ Ptr) (w : World σ) (n : Nat) :
    repeatStmt n (CHECKS .MPS_HOT_WHITE site T val) w
      = some ((), { w with failures := w.failures ++ (List.replicate n
          ("unreachable statement" ++ "\n" ++ site.file ++ "\n" ++ STR site.line)) }) ∧
    repeatStmt n (CHECKL K .MPS_HOT_WHITE site cond) w
      = some ((), { w with failures := w.failures ++ (List.replicate n
          ("unreachable statement" ++ "\n" ++ site.file ++ "\n" ++ STR site.line)) }) ∧
    repeatStmt n (CHECKD K .MPS_HOT_WHITE site T val) w
      = some ((), { w with failures := w.failures ++ (List.replicate n
          ("unreachable statement" ++ "\n" ++ site.file ++ "\n" ++ STR site.line)) }) ∧
    repeatStmt n (CHECKU K .MPS_HOT_WHITE site T val) w
      = some ((), { w with failures := w.failures ++ (List.replicate n
          ("unreachable statement" ++ "\n" ++ site.file ++ "\n" ++ STR site.line)) }) ∧
    CHECKS .MPS_HOT_WHITE site T val w
      = some ((), w.report ("unreachable statement" ++ "\n" ++ site.file ++ "\n" ++ STR site.line)) ∧
    CHECKL K .MPS_HOT_WHITE site cond w
      = some ((), w.report ("unreachable statement" ++ "\n" ++ site.file ++ "\n" ++ STR site.line)) ∧
    CHECKD K .MPS_HOT_WHITE site T val w
      = some ((), w.report ("unreachable statement" ++ "\n" ++ site.file ++ "\n" ++ STR site.line)) ∧
    CHECKU K .MPS_HOT_WHITE site T val w
      = some ((), w.report ("unreachable statement" ++ "\n" ++ site.file ++ "\n" ++ STR site.line)) := by
  have hS : ∀ w : World σ, CHECKS .MPS_HOT_WHITE site T val w
      = some ((), w.report ("unreachable statement" ++ "\n" ++ site.file ++ "\n" ++ STR site.line)) := by
    intro w; simp [CHECKS, NOCHECK, NOTREACHED, seq, AssertFail1, World.report]
  have hL : ∀ w : World σ, CHECKL K .MPS_HOT_WHITE site cond w
      = some ((), w.report ("unreachable statement" ++ "\n" ++ site.file ++ "\n" ++ STR site.line)) := by
    intro w; simp [CHECKL, NOCHECK, NOTREACHED, seq, AssertFail1, World.report]
  have hD : ∀ w : World σ, CHECKD K .MPS_HOT_WHITE site T val w
      = some ((), w.report ("unreachable statement" ++ "\n" ++ site.file ++ "\n" ++ STR site.line)) := by
    intro w; simp [CHECKD, NOCHECK, NOTREACHED, seq, AssertFail1, World.report]
  have hU : ∀ w : World σ, CHECKU K .MPS_HOT_WHITE site T val w
      = some ((), w.report ("unreachable statement" ++ "\n" ++ site.file ++ "\n" ++ STR site.line)) := by
    intro w; simp [CHECKU, NOCHECK, NOTREACHED, seq, AssertFail1, World.report]
  exact ⟨repeatStmt_report _ _ hS n w, repeatStmt_report _ _ hL n w,
    repeatStmt_report _ _ hD n w, repeatStmt_report _ _ hU n w, hS w, hL w, hD w, hU w⟩

/-- C19. For each of `AVER`, `AVERT`, `AVER_CRITICAL`, `AVERT_CRITICAL` and
`CHECKS`, for every argument, site and world (so for every `CheckLevel`): a
failure message the run under `MPS_HOT_RED` adds to the record is also added
by the run under `MPS_COOL`.  For `AVER`, `AVERT` and `CHECKS` the two
varieties have the same expansion; the two critical forms add nothing under
`MPS_HOT_RED`. -/
theorem cool_keeps_hot_red_failures (site : Site) (cond : CExpr σ Bool) (T : CType σ)
    (val : CExpr σ Ptr) (w : World σ) (m : String) :
    (reports (AVER .MPS_HOT_RED site cond) w m = true →
      reports (AVER .MPS_COOL site cond) w m = true) ∧
    (reports (AVERT .MPS_HOT_RED site T val) w m = true →
      reports (AVERT .MPS_COOL site T val) w m = true) ∧
    (reports (AVER_CRITICAL .MPS_HOT_RED site cond) w m = true →
      reports (AVER_CRITICAL .MPS_COOL site cond) w m = true) ∧
    (reports (AVERT_CRITICAL .MPS_HOT_RED site T val) w m = true →
      reports (AVERT_CRITICAL .MPS_COOL site T val) w m = true) ∧
    (reports (CHECKS .MPS_HOT_RED site T val) w m = true →
      reports (CHECKS .MPS_COOL site T val) w m = true) ∧
    AVER .MPS_HOT_RED site cond = AVER .MPS_COOL site cond ∧
    AVERT .MPS_HOT_RED site T val = AVERT .MPS_COOL site T val ∧
    CHECKS .MPS_HOT_RED site T val = CHECKS .MPS_COOL site T val ∧
    reports (AVER_CRITICAL .MPS_HOT_RED site cond) w m = false ∧
    reports (AVERT_CRITICAL .MPS_HOT_RED site T val) w m = false := by
  have hc : reports (AVER_CRITICAL .MPS_HOT_RED site cond) w m = false := by
    simp [reports, AVER_CRITICAL, NOCHECK]
  have ht : reports (AVERT_CRITICAL .MPS_HOT_RED site T val) w m = false := by
    simp [reports, AVERT_CRITICAL, NOCHECK]
  refine ⟨fun h => h, fun h => h, ?_, ?_, fun h => h, rfl, rfl, rfl, hc, ht⟩
  · intro h; rw [hc] at h; exact absurd h (by decide)
  · intro h; rw [ht] at h; exact absurd h (by decide)

/-- Witness for C19: the failure of `AVER` on the counter condition, and the
`SigCheck` failure of `CHECKS` on the object with the overwritten `sig` field,
both reported under `MPS_HOT_RED` and so under `MPS_COOL`. -/
theorem cool_keeps_hot_red_failures_witness :
    reports (AVER .MPS_HOT_RED site0 bumpCond) world0 "hits++ > 9\npool.c\n42" = true ∧
    reports (AVER .MPS_COOL site0 bumpCond) world0 "hits++ > 9\npool.c\n42" = true ∧
    reports (CHECKS .MPS_HOT_RED site0 poolType (ptrLit "pool" 8)) ⟨0, [(8, 0)], 0, ["old"]⟩
      "SigCheck Pool: pool\npool.c\n42" = true ∧
    reports (CHECKS .MPS_COOL site0 poolType (ptrLit "pool" 8)) ⟨0, [(8, 0)], 0, ["old"]⟩
      "SigCheck Pool: pool\npool.c\n42" = true :=
  ⟨by decide,
   (cool_keeps_hot_red_failures site0 bumpCond poolType (ptrLit "pool" 8) world0
      "hits++ > 9\npool.c\n42").1 (by decide),
   by decide,
   (cool_keeps_hot_red_failures site0 bumpCond poolType (ptrLit "pool" 8)
      ⟨0, [(8, 0)], 0, ["old"]⟩ "SigCheck Pool: pool\npool.c\n42").2.2.2.2.1 (by decide)⟩

end MPS
